import Mathlib

/-!
Verification development for the zsqli SQL-injection scanner (`main.go`).

The embedding models the program's pure core directly from the source:

* `RequestResult` mirrors the Go struct `RequestResult`; Go zero values of
  omitted fields become field defaults.  Go `float64` seconds are modelled
  as `ℚ`, Go `int` as `ℤ`.
* `sqlErrorPatterns` mirrors the global regex list: every pattern in the
  source is a case-insensitive (`(?i)`) literal-substring regex, so a match
  is exactly "the ASCII-lowercased body contains the lowercased literal",
  which `matchString` computes via `hasSubstr` on character lists.
* `analyzeSQLi` is a line-by-line translation of `analyzeSQLi`.
* `getBaseline` mirrors `getBaseline`, with the network request
  (`performRequest`) abstracted as an oracle `probe : String → String →
  RequestResult` giving the outcome of requesting a URL with a payload
  appended (cookie and the fixed 15 s timeout are constant throughout a
  scan and are absorbed into the oracle).
* `scanResults`/`runScan` model the dispatch loop of `main`: per target a
  baseline is taken; on failure the target contributes nothing; otherwise
  one job per payload probes, attaches the baseline, classifies, and sends
  its result on the `results` channel.  The channel is buffered with
  `len(urls)*len(payloads)`, an upper bound on the number of sends, so
  producers never block on send and, provided every spawned goroutine can
  acquire the semaphore, every result is delivered and the channel is
  closed after the wait-group barrier.  Delivery order is scheduler
  dependent; the model fixes the canonical sequential order, which is
  adequate for the claims below (they concern counts, emptiness and
  per-result values only).  `semaphoreCapacity` records the capacity the
  source gives `make(chan struct{}, *threads)`; note that in the source
  this `make` happens *before* the range check that resets `*threads` to 5,
  so the capacity always uses the raw flag value (`clampThreads` models the
  subsequent reset, whose result is never read again).  A capacity-0
  semaphore blocks every job forever (each job sends on `semaphore` before
  doing anything else and nothing ever receives first), so the scan never
  terminates when there is at least one job; a negative capacity makes
  `make` panic.  `runScan` returns `none` in those failure cases and
  `some` of the delivered results otherwise.
-/

/-- Mirror of the Go struct `RequestResult`; defaults are Go zero values. -/
structure RequestResult where
  Success : Bool := false
  URL : String := ""
  ResponseTime : ℚ := 0
  ErrorMsg : String := ""
  Body : String := ""
  BodySize : Int := 0
  IsSQLi : Bool := false
  SQLiType : String := ""
  BaselineTime : ℚ := 0
  BaselineSize : Int := 0
  deriving Repr, DecidableEq

/-- Is `pat` a contiguous substring of `s`?  (Both as character lists.) -/
def hasSubstr (pat : List Char) : List Char → Bool
  | [] => pat.isEmpty
  | c :: rest => pat.isPrefixOf (c :: rest) || hasSubstr pat rest

/-- ASCII-lowercased character list of a string, the case folding performed
by the `(?i)` flag on the ASCII-only patterns of the source. -/
def strLower (s : String) : List Char := s.data.map Char.toLower

/-- Case-insensitive literal-substring match: the semantics of
`regexp.MustCompile("(?i)" + pat).MatchString s` for the literal patterns
in `sqlErrorPatterns`. -/
def matchString (pat s : String) : Bool :=
  hasSubstr (strLower pat) (strLower s)

/-- The literal texts of the global `sqlErrorPatterns` regex list. -/
def sqlErrorPatterns : List String :=
  ["mysql_fetch", "sql syntax", "mysql error", "unclosed quotation",
   "unknown column", "sql server", "sqlite3", "postgres"]

/-- Line-by-line translation of `analyzeSQLi` (main.go lines 119-144). -/
def analyzeSQLi (result : RequestResult) (baselineTime : ℚ)
    (baselineSize : Int) : RequestResult :=
  let timeThreshold := baselineTime * 3
  if result.ResponseTime ≥ timeThreshold ∧ result.ResponseTime ≥ 5 then
    { result with IsSQLi := true, SQLiType := "time-based" }
  else if sqlErrorPatterns.any (fun pat => matchString pat result.Body) then
    { result with IsSQLi := true, SQLiType := "error-based" }
  else if baselineSize > 0 ∧ (result.BodySize < baselineSize / 2 ∨
      result.BodySize > baselineSize * 2) then
    { result with IsSQLi := true, SQLiType := "anomaly-based" }
  else
    { result with SQLiType := "none" }

/-- Mirror of `getBaseline` (main.go lines 111-117): probe with the empty
payload; fail exactly when the probe fails, else return time and size. -/
def getBaseline (probe : String → String → RequestResult) (url : String) :
    Option (ℚ × Int) :=
  let result := probe url ""
  if result.Success then some (result.ResponseTime, result.BodySize)
  else none

/-- One dispatched job (the goroutine body, main.go lines 236-245): probe,
attach the target's baseline, classify. -/
def probeJob (probe : String → String → RequestResult)
    (url payload : String) (bt : ℚ) (bs : Int) : RequestResult :=
  let result := probe url payload
  let result := { result with BaselineTime := bt, BaselineSize := bs }
  analyzeSQLi result bt bs

/-- All jobs of one target with an established baseline. -/
def scanTarget (probe : String → String → RequestResult)
    (payloads : List String) (url : String) (bt : ℚ) (bs : Int) :
    List RequestResult :=
  payloads.map (fun p => probeJob probe url p bt bs)

/-- The results delivered by the dispatch loop (main.go lines 226-252):
per URL, a baseline is attempted; a failed baseline skips the URL
(`continue`), a successful one spawns one job per payload. -/
def scanResults (probe : String → String → RequestResult)
    (urls payloads : List String) : List RequestResult :=
  urls.flatMap (fun u =>
    match getBaseline probe u with
    | none => []
    | some (bt, bs) => scanTarget probe payloads u bt bs)

/-- Capacity of `semaphore := make(chan struct{}, *threads)` (line 221):
the raw flag value, because the `make` precedes the range check. -/
def semaphoreCapacity (threads : Int) : Int := threads

/-- The range check on `*threads` (lines 222-224), performed after the
semaphore has already been created; its result is never read afterwards. -/
def clampThreads (threads : Int) : Int :=
  if threads < 1 ∨ threads > 20 then 5 else threads

/-- Number of targets whose baseline succeeded. -/
def successfulBaselines (probe : String → String → RequestResult)
    (urls : List String) : Nat :=
  (urls.filter (fun u => (getBaseline probe u).isSome)).length

/-- Outcome of running the whole dispatch with a given `-t` flag value:
`none` when `make` panics (negative capacity) or when a capacity-0
semaphore deadlocks the spawned jobs; otherwise the delivered results. -/
def runScan (threads : Int) (probe : String → String → RequestResult)
    (urls payloads : List String) : Option (List RequestResult) :=
  let capacity := semaphoreCapacity threads
  if capacity < 0 then none
  else if capacity = 0 ∧
      successfulBaselines probe urls * payloads.length ≠ 0 then none
  else some (scanResults probe urls payloads)

/-- The time-based rule's condition (main.go line 121). -/
def timeBasedCond (result : RequestResult) (baselineTime : ℚ) : Prop :=
  result.ResponseTime ≥ baselineTime * 3 ∧ result.ResponseTime ≥ 5

/-- The error-based rule's condition: some pattern matches the body. -/
def errorBasedCond (result : RequestResult) : Prop :=
  sqlErrorPatterns.any (fun pat => matchString pat result.Body) = true

/-- The anomaly-based rule's condition (main.go line 136). -/
def anomalyCond (result : RequestResult) (baselineSize : Int) : Prop :=
  baselineSize > 0 ∧ (result.BodySize < baselineSize / 2 ∨
    result.BodySize > baselineSize * 2)

instance (r : RequestResult) (bt : ℚ) : Decidable (timeBasedCond r bt) :=
  inferInstanceAs (Decidable (r.ResponseTime ≥ bt * 3 ∧ r.ResponseTime ≥ 5))

instance (r : RequestResult) : Decidable (errorBasedCond r) :=
  inferInstanceAs
    (Decidable (sqlErrorPatterns.any (fun pat => matchString pat r.Body) = true))

instance (r : RequestResult) (bs : Int) : Decidable (anomalyCond r bs) :=
  inferInstanceAs
    (Decidable (bs > 0 ∧ (r.BodySize < bs / 2 ∨ r.BodySize > bs * 2)))

/-! ### Helper lemmas -/

lemma isPrefixOf_append (p l m : List Char) (h : p.isPrefixOf l = true) :
    p.isPrefixOf (l ++ m) = true := by
  induction p generalizing l with
  | nil => simp [List.isPrefixOf]
  | cons a as ih =>
    cases l with
    | nil => simp [List.isPrefixOf] at h
    | cons b bs =>
      simp only [List.cons_append, List.isPrefixOf, Bool.and_eq_true] at h ⊢
      exact ⟨h.1, ih bs h.2⟩

lemma hasSubstr_nil_pat (s : List Char) : hasSubstr [] s = true := by
  induction s with
  | nil => rfl
  | cons c rest ih => simp [hasSubstr, List.isPrefixOf]

lemma hasSubstr_append_right (pat l m : List Char)
    (h : hasSubstr pat l = true) : hasSubstr pat (l ++ m) = true := by
  induction l with
  | nil =>
    cases pat with
    | nil => exact hasSubstr_nil_pat m
    | cons a as => simp [hasSubstr, List.isEmpty] at h
  | cons c rest ih =>
    simp only [hasSubstr, Bool.or_eq_true] at h
    rcases h with h | h
    · simp only [List.cons_append, hasSubstr, Bool.or_eq_true]
      exact Or.inl (isPrefixOf_append _ _ _ h)
    · simp only [List.cons_append, hasSubstr, Bool.or_eq_true]
      exact Or.inr (ih h)

lemma hasSubstr_append_left (pat l m : List Char)
    (h : hasSubstr pat m = true) : hasSubstr pat (l ++ m) = true := by
  induction l with
  | nil => exact h
  | cons c rest ih =>
    simp only [List.cons_append, hasSubstr, Bool.or_eq_true]
    exact Or.inr ih

lemma strLower_append (a b : String) :
    strLower (a ++ b) = strLower a ++ strLower b := by
  simp [strLower, String.data_append]

/-- The classification value of `analyzeSQLi` as a priority-ordered
decision chain over the three rule conditions. -/
lemma analyzeSQLi_sqlitype (r : RequestResult) (bt : ℚ) (bs : Int) :
    (analyzeSQLi r bt bs).SQLiType =
      if timeBasedCond r bt then "time-based"
      else if errorBasedCond r then "error-based"
      else if anomalyCond r bs then "anomaly-based"
      else "none" := by
  simp only [analyzeSQLi, timeBasedCond, errorBasedCond, anomalyCond]
  split_ifs <;> simp_all

/-- The `IsSQLi` flag of `analyzeSQLi`: set by the three positive rules,
left unchanged by the fall-through branch. -/
lemma analyzeSQLi_issqli (r : RequestResult) (bt : ℚ) (bs : Int) :
    (analyzeSQLi r bt bs).IsSQLi =
      if timeBasedCond r bt then true
      else if errorBasedCond r then true
      else if anomalyCond r bs then true
      else r.IsSQLi := by
  simp only [analyzeSQLi, timeBasedCond, errorBasedCond, anomalyCond]
  split_ifs <;> simp_all

/-! ### Concrete fixtures used by witnesses and counterexamples -/

/-- A probe oracle where every request succeeds in 1 s with a 2-byte body. -/
def demoProbe : String → String → RequestResult := fun u p =>
  { Success := true, URL := u ++ p, ResponseTime := 1, Body := "ok",
    BodySize := 2 }

/-- A probe oracle where requests against `http://bad` fail and all other
requests succeed. -/
def mixedProbe : String → String → RequestResult := fun u p =>
  if u = "http://bad" then
    { Success := false, URL := u ++ p, ResponseTime := 15,
      ErrorMsg := "context deadline exceeded" }
  else
    { Success := true, URL := u ++ p, ResponseTime := 1, Body := "ok",
      BodySize := 2 }

/-- The result shape `performRequest` produces for a timed-out request:
failure flag, elapsed time recorded, body and body size left at their zero
values. -/
def timedOutResult : RequestResult :=
  { Success := false, URL := "http://target/page?id=1",
    ResponseTime := 15, ErrorMsg := "context deadline exceeded" }

/-- A fast successful probe whose body trips no error pattern. -/
def plainResult : RequestResult :=
  { Success := true, URL := "http://target/page?id=1", ResponseTime := 1,
    Body := "hello", BodySize := 5 }

/-- A slow response that also contains a database error string. -/
def slowErrorResult : RequestResult :=
  { Success := true, URL := "http://target/page?id=1", ResponseTime := 20,
    Body := "MySQL Error near line 1", BodySize := 23 }

/-- The boundary vector of the spec: response 5.9 s against baseline 2 s. -/
def boundaryResult : RequestResult :=
  { Success := true, URL := "http://target/page?id=1",
    ResponseTime := 59/10, Body := "hello", BodySize := 5 }

/-- Body shrunk below half the baseline size. -/
def smallBodyResult : RequestResult :=
  { Success := true, URL := "http://target/page?id=1", ResponseTime := 1,
    Body := "", BodySize := 400 }

/-- Body within the `[baseline/2, baseline*2]` band. -/
def midBodyResult : RequestResult :=
  { Success := true, URL := "http://target/page?id=1", ResponseTime := 1,
    Body := "", BodySize := 600 }

/-- A body containing the MySQL syntax-error sentence in mixed casing. -/
def caseVariantResult : RequestResult :=
  { Success := true, URL := "http://target/page?id=1", ResponseTime := 1,
    Body := "Warning: You have an ERROR in your SQL SYNTAX; check the manual",
    BodySize := 63 }

/-! ### Claims -/

/-- C3: the classifier always assigns exactly one of the four labels
time-based, error-based, anomaly-based, none; the rules are evaluated as a
strict priority chain with the first matching rule winning; in particular
an input satisfying both the time-based and the error-based conditions is
classified time-based. -/
theorem classifier_exactly_one_label_priority_order :
    ∀ (r : RequestResult) (bt : ℚ) (bs : Int),
      ((analyzeSQLi r bt bs).SQLiType = "time-based" ∨
       (analyzeSQLi r bt bs).SQLiType = "error-based" ∨
       (analyzeSQLi r bt bs).SQLiType = "anomaly-based" ∨
       (analyzeSQLi r bt bs).SQLiType = "none") ∧
      ((analyzeSQLi r bt bs).SQLiType =
        if timeBasedCond r bt then "time-based"
        else if errorBasedCond r then "error-based"
        else if anomalyCond r bs then "anomaly-based"
        else "none") ∧
      (timeBasedCond r bt → errorBasedCond r →
        (analyzeSQLi r bt bs).SQLiType = "time-based") := by
  intro r bt bs
  refine ⟨?_, analyzeSQLi_sqlitype r bt bs, ?_⟩
  · rw [analyzeSQLi_sqlitype]
    split_ifs <;> simp
  · intro ht _
    rw [analyzeSQLi_sqlitype, if_pos ht]

/-- Witness for C3: a 20 s response (baseline 1 s) whose body also contains
"MySQL Error" satisfies both leading conditions and is labelled
time-based. -/
theorem classifier_exactly_one_label_priority_order_witness :
    (analyzeSQLi slowErrorResult 1 0).SQLiType = "time-based" := by
  refine (classifier_exactly_one_label_priority_order slowErrorResult 1 0).2.2
    ?_ ?_
  · constructor <;> norm_num [slowErrorResult, timeBasedCond]
  · decide

/-- C5: the time-based rule fires exactly when the response time is at
least three times the baseline and at least 5 s; at baseline 2.0 s a 5.9 s
response (multiplier 2.95, floor met) is not classified time-based. -/
theorem time_based_rule_iff_thresholds :
    (∀ (r : RequestResult) (bt : ℚ) (bs : Int),
      ((analyzeSQLi r bt bs).SQLiType = "time-based" ↔
        (r.ResponseTime ≥ 3 * bt ∧ r.ResponseTime ≥ 5))) ∧
    (analyzeSQLi boundaryResult 2 1000).SQLiType ≠ "time-based" := by
  have key : ∀ (r : RequestResult) (bt : ℚ) (bs : Int),
      ((analyzeSQLi r bt bs).SQLiType = "time-based" ↔
        (r.ResponseTime ≥ 3 * bt ∧ r.ResponseTime ≥ 5)) := by
    intro r bt bs
    rw [analyzeSQLi_sqlitype]
    by_cases ht : timeBasedCond r bt
    · rw [if_pos ht]
      exact ⟨fun _ => ⟨by rw [mul_comm]; exact ht.1, ht.2⟩, fun _ => rfl⟩
    · rw [if_neg ht]
      constructor
      · intro h
        exfalso
        revert h
        split_ifs <;> decide
      · intro hcond
        exact absurd ⟨by rw [mul_comm bt 3]; exact hcond.1, hcond.2⟩ ht
  refine ⟨key, ?_⟩
  intro h
  have hcond := (key boundaryResult 2 1000).mp h
  have h1 := hcond.1
  norm_num [boundaryResult] at h1

/-- C9: starting from `IsSQLi = false`, the classifier sets `IsSQLi` to
true exactly when it assigns one of the three positive labels, and leaves
it false exactly when it assigns "none". -/
theorem issqli_iff_positive_label :
    ∀ (r : RequestResult) (bt : ℚ) (bs : Int), r.IsSQLi = false →
      (((analyzeSQLi r bt bs).IsSQLi = true ↔
        ((analyzeSQLi r bt bs).SQLiType = "time-based" ∨
         (analyzeSQLi r bt bs).SQLiType = "error-based" ∨
         (analyzeSQLi r bt bs).SQLiType = "anomaly-based")) ∧
       ((analyzeSQLi r bt bs).IsSQLi = false ↔
        (analyzeSQLi r bt bs).SQLiType = "none")) := by
  intro r bt bs h
  rw [analyzeSQLi_issqli, analyzeSQLi_sqlitype, h]
  split_ifs <;> simp

/-- Witness for C9 at a concrete unclassified result. -/
theorem issqli_iff_positive_label_witness :
    ((analyzeSQLi plainResult 1 5).IsSQLi = false ↔
      (analyzeSQLi plainResult 1 5).SQLiType = "none") :=
  (issqli_iff_positive_label plainResult 1 5 rfl).2

/-- C10: the classifier writes only `IsSQLi` and `SQLiType`; every other
field of the returned result equals the corresponding input field. -/
theorem analyzeSQLi_frame_only_issqli_sqlitype :
    ∀ (r : RequestResult) (bt : ℚ) (bs : Int),
      (analyzeSQLi r bt bs).Success = r.Success ∧
      (analyzeSQLi r bt bs).URL = r.URL ∧
      (analyzeSQLi r bt bs).ResponseTime = r.ResponseTime ∧
      (analyzeSQLi r bt bs).ErrorMsg = r.ErrorMsg ∧
      (analyzeSQLi r bt bs).Body = r.Body ∧
      (analyzeSQLi r bt bs).BodySize = r.BodySize ∧
      (analyzeSQLi r bt bs).BaselineTime = r.BaselineTime ∧
      (analyzeSQLi r bt bs).BaselineSize = r.BaselineSize := by
  intro r bt bs
  simp only [analyzeSQLi]
  split_ifs <;> simp

/-- C6: below the two leading rules, the anomaly rule fires exactly when
the baseline size is positive and the result size lies outside the band
from half to double the baseline; at baseline 1000 a 400-byte result is
anomaly-based and a 600-byte result is none; at baseline 0 the anomaly
label is never assigned, whatever the result size. -/
theorem anomaly_rule_characterization :
    (∀ (r : RequestResult) (bt : ℚ) (bs : Int),
      ¬ timeBasedCond r bt → ¬ errorBasedCond r →
      ((analyzeSQLi r bt bs).SQLiType = "anomaly-based" ↔ anomalyCond r bs)) ∧
    (analyzeSQLi smallBodyResult 1 1000).SQLiType = "anomaly-based" ∧
    (analyzeSQLi midBodyResult 1 1000).SQLiType = "none" ∧
    (∀ (r : RequestResult) (bt : ℚ),
      (analyzeSQLi r bt 0).SQLiType ≠ "anomaly-based") := by
  have key : ∀ (r : RequestResult) (bt : ℚ) (bs : Int),
      ¬ timeBasedCond r bt → ¬ errorBasedCond r →
      ((analyzeSQLi r bt bs).SQLiType = "anomaly-based" ↔
        anomalyCond r bs) := by
    intro r bt bs ht he
    rw [analyzeSQLi_sqlitype, if_neg ht, if_neg he]
    by_cases ha : anomalyCond r bs
    · rw [if_pos ha]
      exact ⟨fun _ => ha, fun _ => rfl⟩
    · rw [if_neg ha]
      exact ⟨fun h => absurd h (by decide), fun h => absurd h ha⟩
  refine ⟨key, ?_, ?_, ?_⟩
  · exact (key smallBodyResult 1 1000
      (by norm_num [timeBasedCond, smallBodyResult]) (by decide)).mpr
      (by decide)
  · rw [analyzeSQLi_sqlitype,
      if_neg (show ¬ timeBasedCond midBodyResult 1 by
        norm_num [timeBasedCond, midBodyResult]),
      if_neg (show ¬ errorBasedCond midBodyResult by decide),
      if_neg (show ¬ anomalyCond midBodyResult 1000 by decide)]
  · intro r bt
    rw [analyzeSQLi_sqlitype]
    split_ifs with h1 h2 h3
    · decide
    · decide
    · exact absurd h3.1 (by decide)
    · decide

/-- Witness for C6 at the 400-byte result against the 1000-byte baseline. -/
theorem anomaly_rule_characterization_witness :
    (analyzeSQLi smallBodyResult 1 1000).SQLiType = "anomaly-based" :=
  (anomaly_rule_characterization.1 smallBodyResult 1 1000
    (by norm_num [timeBasedCond, smallBodyResult]) (by decide)).mpr
    (by decide)

/-- C7: a result not classified time-based whose body contains the
sentence "You have an error in your SQL syntax" in any letter casing is
classified error-based: the signature match is case-insensitive. -/
theorem error_signature_match_case_insensitive :
    ∀ (r : RequestResult) (bt : ℚ) (bs : Int) (pre mid post : String),
      ¬ timeBasedCond r bt →
      r.Body = pre ++ mid ++ post →
      strLower mid = strLower "You have an error in your SQL syntax" →
      (analyzeSQLi r bt bs).SQLiType = "error-based" := by
  intro r bt bs pre mid post ht hbody hmid
  have hmatch : matchString "sql syntax" r.Body = true := by
    unfold matchString
    rw [hbody, strLower_append, strLower_append]
    apply hasSubstr_append_right
    apply hasSubstr_append_left
    rw [hmid]
    decide
  have he : errorBasedCond r := by
    unfold errorBasedCond
    rw [List.any_eq_true]
    exact ⟨"sql syntax", by simp [sqlErrorPatterns], hmatch⟩
  rw [analyzeSQLi_sqlitype, if_neg ht, if_pos he]

/-- Witness for C7 at a mixed-casing body. -/
theorem error_signature_match_case_insensitive_witness :
    (analyzeSQLi caseVariantResult 1 0).SQLiType = "error-based" := by
  apply error_signature_match_case_insensitive caseVariantResult 1 0
    "Warning: " "You have an ERROR in your SQL SYNTAX" "; check the manual"
  · norm_num [timeBasedCond, caseVariantResult]
  · decide
  · decide

/-- C2 counterexample: a failed probe (15 s timeout, empty body, zero
size) against a 1 s / 500-byte baseline is classified time-based, not
"none" as the claim requires. -/
theorem failed_probe_not_classified_none :
    timedOutResult.Success = false ∧
    (analyzeSQLi timedOutResult 1 500).SQLiType = "time-based" ∧
    (analyzeSQLi timedOutResult 1 500).SQLiType ≠ "none" := by
  have ht : timeBasedCond timedOutResult 1 := by
    constructor <;> norm_num [timedOutResult, timeBasedCond]
  have h2 : (analyzeSQLi timedOutResult 1 500).SQLiType = "time-based" := by
    rw [analyzeSQLi_sqlitype, if_pos ht]
  exact ⟨rfl, h2, by rw [h2]; decide⟩

/-- C2 (amended): a failed probe is still classified by the ordinary rule
chain applied to its recorded fields (elapsed time, empty body, zero body
size): time-based when its elapsed time meets both thresholds, otherwise
anomaly-based when the baseline size is at least 2 (its zero size is then
below half the baseline), otherwise none; its empty body never matches an
error signature. -/
theorem failed_probe_rule_chain :
    ∀ (r : RequestResult) (bt : ℚ) (bs : Int),
      r.Success = false → r.Body = "" → r.BodySize = 0 →
      ((timeBasedCond r bt →
         (analyzeSQLi r bt bs).SQLiType = "time-based") ∧
       (¬ timeBasedCond r bt → 2 ≤ bs →
         (analyzeSQLi r bt bs).SQLiType = "anomaly-based") ∧
       (¬ timeBasedCond r bt → bs < 2 →
         (analyzeSQLi r bt bs).SQLiType = "none")) := by
  intro r bt bs _ hbody hsize
  have he : ¬ errorBasedCond r := by
    unfold errorBasedCond
    rw [hbody]
    decide
  refine ⟨?_, ?_, ?_⟩
  · intro ht
    rw [analyzeSQLi_sqlitype, if_pos ht]
  · intro ht h2
    have ha : anomalyCond r bs := by
      unfold anomalyCond
      rw [hsize]
      exact ⟨by omega, Or.inl (by omega)⟩
    rw [analyzeSQLi_sqlitype, if_neg ht, if_neg he, if_pos ha]
  · intro ht h2
    have ha : ¬ anomalyCond r bs := by
      unfold anomalyCond
      rw [hsize]
      rintro ⟨hpos, hlt | hgt⟩ <;> omega
    rw [analyzeSQLi_sqlitype, if_neg ht, if_neg he, if_neg ha]

/-- Witness for the amended C2 at the timed-out fixture. -/
theorem failed_probe_rule_chain_witness :
    (analyzeSQLi timedOutResult 1 500).SQLiType = "time-based" :=
  (failed_probe_rule_chain timedOutResult 1 500 rfl rfl rfl).1
    (by constructor <;> norm_num [timedOutResult, timeBasedCond])

lemma scanResults_length (probe : String → String → RequestResult)
    (urls payloads : List String) :
    (scanResults probe urls payloads).length =
      successfulBaselines probe urls * payloads.length := by
  induction urls with
  | nil => simp [scanResults, successfulBaselines]
  | cons u us ih =>
    cases hb : getBaseline probe u with
    | none =>
      have h1 : scanResults probe (u :: us) payloads =
          scanResults probe us payloads := by
        simp [scanResults, hb]
      have h2 : successfulBaselines probe (u :: us) =
          successfulBaselines probe us := by
        simp [successfulBaselines, List.filter_cons, hb]
      rw [h1, h2]
      exact ih
    | some b =>
      obtain ⟨bt, bs⟩ := b
      have h1 : scanResults probe (u :: us) payloads =
          scanTarget probe payloads u bt bs ++ scanResults probe us payloads := by
        simp [scanResults, hb]
      have h2 : successfulBaselines probe (u :: us) =
          successfulBaselines probe us + 1 := by
        simp [successfulBaselines, List.filter_cons, hb]
      have h3 : (scanTarget probe payloads u bt bs).length =
          payloads.length := by
        simp [scanTarget]
      rw [h1, List.length_append, h2, ih, h3]
      ring

/-- C4: for every concurrency limit between 1 and 20 the scan completes
and delivers exactly (number of targets with a successful baseline) ×
(number of payloads) results; the limit never changes the delivered
list. -/
theorem result_count_independent_of_concurrency :
    ∀ (t : Int) (probe : String → String → RequestResult)
      (urls payloads : List String),
      1 ≤ t → t ≤ 20 →
      (runScan t probe urls payloads =
        some (scanResults probe urls payloads) ∧
       (scanResults probe urls payloads).length =
         successfulBaselines probe urls * payloads.length) := by
  intro t probe urls payloads h1 h20
  refine ⟨?_, scanResults_length probe urls payloads⟩
  have hn : ¬ (t = 0 ∧
      successfulBaselines probe urls * payloads.length ≠ 0) := by
    rintro ⟨h0, -⟩
    omega
  simp only [runScan, semaphoreCapacity]
  rw [if_neg (show ¬ t < 0 by omega), if_neg hn]

/-- Witness for C4: limit 5, two reachable targets, two payloads. -/
theorem result_count_independent_of_concurrency_witness :
    runScan 5 demoProbe ["http://a", "http://b"] ["x", "y"] =
      some (scanResults demoProbe ["http://a", "http://b"] ["x", "y"]) ∧
    (scanResults demoProbe ["http://a", "http://b"] ["x", "y"]).length =
      successfulBaselines demoProbe ["http://a", "http://b"] *
        (["x", "y"] : List String).length :=
  result_count_independent_of_concurrency 5 demoProbe
    ["http://a", "http://b"] ["x", "y"] (by decide) (by decide)

/-- C8: a target whose baseline fails contributes zero results for any
payload, and the scan of a target list containing it equals the scans of
the targets before and after it, concatenated: scanning continues with
the remaining targets. -/
theorem baseline_failure_skips_target :
    ∀ (probe : String → String → RequestResult) (u : String)
      (urls1 urls2 payloads : List String),
      (probe u "").Success = false →
      (scanResults probe [u] payloads = [] ∧
       scanResults probe (urls1 ++ u :: urls2) payloads =
         scanResults probe urls1 payloads ++
           scanResults probe urls2 payloads) := by
  intro probe u urls1 urls2 payloads hfail
  have hbase : getBaseline probe u = none := by
    simp [getBaseline, hfail]
  constructor
  · simp [scanResults, hbase]
  · simp [scanResults, hbase]

/-- Witness for C8: the unreachable target `http://bad` between two
reachable targets. -/
theorem baseline_failure_skips_target_witness :
    scanResults mixedProbe ["http://bad"] ["x"] = [] ∧
    scanResults mixedProbe (["http://a"] ++ "http://bad" :: ["http://b"])
        ["x"] =
      scanResults mixedProbe ["http://a"] ["x"] ++
        scanResults mixedProbe ["http://b"] ["x"] :=
  baseline_failure_skips_target mixedProbe "http://bad" ["http://a"]
    ["http://b"] ["x"] (by decide)

/-- C1: the claim fails on the code.  `make(chan struct\x7b\x7d, *threads)`
runs before the range check on `*threads`, so the semaphore capacity is
the raw flag value, not the default 5: with `-t 0` the capacity is 0 and
a scan with one reachable target and one payload deadlocks instead of
behaving like the default, and with `-t 50` the capacity is 50.  The
clamped value (5 in both cases) is computed but never used. -/
theorem semaphore_capacity_ignores_clamp :
    clampThreads 0 = 5 ∧ clampThreads 50 = 5 ∧
    semaphoreCapacity 0 = 0 ∧ semaphoreCapacity 50 = 50 ∧
    runScan 0 demoProbe ["http://a"] ["x"] = none ∧
    runScan 5 demoProbe ["http://a"] ["x"] =
      some (scanResults demoProbe ["http://a"] ["x"]) :=
  ⟨rfl, rfl, rfl, rfl, rfl, rfl⟩
